import Mathlib

/-
  Shallow embedding of the ENC28J60 Ethernet driver (src/enc28j60.c,
  src/enc28j60.h) for checking its natural-language specification.

  Modelling conventions:
  - Register and bank constants mirror the C defines.
  - The chip is external hardware reached over SPI.  Every value the
    driver READS from the chip (the EPKTCNT byte, the RX FIFO byte
    stream, the EREVID byte, poll outcomes) is an explicit parameter of
    the embedded function.  Every WRITE-like bus transaction the driver
    performs is recorded in an explicit trace of abstract actions, in
    program order, so that theorems can speak about which registers were
    programmed and how many FIFO bytes were consumed.
  - Bounded 5 s polling loops (oscillator ready, transmit-request clear)
    are modelled by a Bool parameter saying whether the polled bit
    reached the desired value within the timeout.
  - uint8_t values are Nat taken mod 256 at the point the C code stores
    a byte; uint16_t arithmetic is taken mod 65536 where it can wrap.
  - The int counters receivedPackets and sentPackets are Int.
-/

/- Register addresses and bit masks, from the defines of src/enc28j60.c. -/

def EIE : Nat := 0x1b

def EIR : Nat := 0x1c

def ESTAT : Nat := 0x1d

def ECON2 : Nat := 0x1e

def ECON1 : Nat := 0x1f

def ESTAT_CLKRDY : Nat := 0x01

def ECON1_RXEN : Nat := 0x04

def ECON1_TXRTS : Nat := 0x08

def ECON2_AUTOINC : Nat := 0x80

def ECON2_PKTDEC : Nat := 0x40

def EIR_TXIF : Nat := 0x08

def ERXTX_BANK : Nat := 0x00

def ERDPTL : Nat := 0x00

def EWRPTL : Nat := 0x02

def ETXSTL : Nat := 0x04

def ETXNDL : Nat := 0x06

def ERXSTL : Nat := 0x08

def ERXNDL : Nat := 0x0a

def ERXRDPTL : Nat := 0x0c

def RX_BUF_START : Nat := 0x0000

def RX_BUF_END : Nat := 0x0fff

def TX_BUF_START : Nat := 0x1200

def MACONX_BANK : Nat := 0x02

def MACON1 : Nat := 0x00

def MACON3 : Nat := 0x02

def MABBIPG : Nat := 0x04

def MAIPGL : Nat := 0x06

def MAMXFLL : Nat := 0x0a

def MACON1_TXPAUS : Nat := 0x08

def MACON1_RXPAUS : Nat := 0x04

def MACON1_MARXEN : Nat := 0x01

def MACON3_PADCFG_FULL : Nat := 0xe0

def MACON3_TXCRCEN : Nat := 0x10

def MACON3_FRMLNEN : Nat := 0x02

def MACON3_FULDPX : Nat := 0x01

def MAX_MAC_LENGTH : Nat := 1518

def MAADRX_BANK : Nat := 0x03

def MAADR1 : Nat := 0x04

def MAADR2 : Nat := 0x05

def MAADR3 : Nat := 0x02

def MAADR4 : Nat := 0x03

def MAADR5 : Nat := 0x00

def MAADR6 : Nat := 0x01

def MISTAT : Nat := 0x0a

def EREVID : Nat := 0x12

def EPKTCNT_BANK : Nat := 0x01

def ERXFCON : Nat := 0x18

def EPKTCNT : Nat := 0x19

def ERXFCON_UCEN : Nat := 0x80

def ERXFCON_CRCEN : Nat := 0x20

def ERXFCON_BCEN : Nat := 0x01

/-- The watchdog interval programmed in ENC28J60_setup (line 125):
periodicTimer_setup with 30 * 1000 milliseconds. -/
def WATCHDOG_INTERVAL_MS : Nat := 30 * 1000

/-- Abstract bus actions emitted by the driver, in program order.
selectBank abstracts the read-modify-write of the ECON1 bank bits done
by ENC28J60 setRegBank; readData n abstracts an n-byte Read Buffer
Memory transaction; writeData abstracts a Write Buffer Memory
transaction; resetAssert and resetDeassert are the hardware reset line
edges.  Register reads are not traced: the byte each read returns is a
parameter of the embedded function instead. -/
inductive BusAction where
  | selectBank (bank : Nat)
  | writeReg (reg : Nat) (data : Nat)
  | writeReg16 (reg : Nat) (data : Nat)
  | setBit (reg : Nat) (mask : Nat)
  | clearBit (reg : Nat) (mask : Nat)
  | writeData (bytes : List Nat)
  | readData (n : Nat)
  | resetAssert
  | resetDeassert
  deriving DecidableEq, Repr

/-- Driver state, from the ENC28J60 struct of src/enc28j60.h (the
hardware handles and pin assignments are not modelled; the watchdog
timer is modelled by the elapsed parameter of ENC28J60_tick). -/
structure ENC28J60 where
  bank : Nat
  receivedPackets : Int
  sentPackets : Int
  macAddress : List Nat
  deriving DecidableEq, Repr

/-- C source: ENC28J60_isMacMiiReg, src/enc28j60.c lines 131-143.  The
switch on the bank uses the literals 2 (MACONX_BANK) and 3
(MAADRX_BANK); ERXTX_BANK, EPKTCNT_BANK and the default all return 0. -/
def _ENC28J60_isMacMiiReg (bank reg : Nat) : Bool :=
  match bank with
  | 2 => decide (reg < EIE)
  | 3 => decide (reg ≤ MAADR2) || decide (reg = MISTAT)
  | _ => false

/-- C source: ENC28J60_readReg, src/enc28j60.c lines 145-156, at the
level of the bytes clocked out on the SPI bus between the chip-select
assert and deassert: the read opcode with the 5-bit address, then a
dummy 0x00 byte exactly when the register is MAC/MII class for the
current bank, then the 0x00 byte clocked while the result is read. -/
def _ENC28J60_readReg_spi (bank reg : Nat) : List Nat :=
  [0x00 ||| (reg % 32)]
    ++ (if _ENC28J60_isMacMiiReg bank reg then [0x00] else [])
    ++ [0x00]

/-- C source: ENC28J60_readRev, src/enc28j60.c lines 240-252.  Selects
MAADRX_BANK, reads EREVID (the byte read is the rev parameter), and
remaps raw value 2 to 1 and raw value 6 to 7 via the switch. -/
def _ENC28J60_readRev (e : ENC28J60) (rev : Nat) : Nat × ENC28J60 :=
  let r := rev % 256
  (match r with
   | 2 => 1
   | 6 => 7
   | _ => r,
   { e with bank := MAADRX_BANK })

/-- Register writes performed by ENC28J60 reset after the oscillator
reports ready, src/enc28j60.c lines 335-458, in program order. -/
def _ENC28J60_resetWriteTrace (mac : List Nat) : List BusAction :=
  [BusAction.selectBank ERXTX_BANK,
   BusAction.writeReg16 ERXSTL RX_BUF_START,
   BusAction.writeReg16 ERXNDL RX_BUF_END,
   BusAction.writeReg16 ERDPTL RX_BUF_START,
   BusAction.writeReg16 ERXRDPTL RX_BUF_END,
   BusAction.selectBank EPKTCNT_BANK,
   BusAction.writeReg ERXFCON (ERXFCON_UCEN ||| ERXFCON_CRCEN ||| ERXFCON_BCEN),
   BusAction.selectBank MACONX_BANK,
   BusAction.setBit MACON1 (MACON1_MARXEN ||| MACON1_TXPAUS ||| MACON1_RXPAUS),
   BusAction.setBit MACON3 (MACON3_PADCFG_FULL ||| MACON3_TXCRCEN ||| MACON3_FULDPX ||| MACON3_FRMLNEN),
   BusAction.writeReg16 MAMXFLL MAX_MAC_LENGTH,
   BusAction.writeReg MABBIPG 0x15,
   BusAction.writeReg MAIPGL 0x12,
   BusAction.selectBank MAADRX_BANK,
   BusAction.writeReg MAADR6 (mac.getD 5 0),
   BusAction.writeReg MAADR5 (mac.getD 4 0),
   BusAction.writeReg MAADR4 (mac.getD 3 0),
   BusAction.writeReg MAADR3 (mac.getD 2 0),
   BusAction.writeReg MAADR2 (mac.getD 1 0),
   BusAction.writeReg MAADR1 (mac.getD 0 0),
   BusAction.setBit ECON2 ECON2_AUTOINC,
   BusAction.writeReg ECON1 ECON1_RXEN]

/-- C source: ENC28J60 reset, src/enc28j60.c lines 254-461.  Pulses the
hardware reset line, then polls ESTAT.CLKRDY with a 5 s timeout; clkrdy
says whether the bit read as set within the timeout.  On timeout it
returns 1 with no further register access and the driver state
untouched; on success it performs the initialization writes (the last
recorded bank select is MAADRX_BANK) and returns 0. -/
def _ENC28J60_reset (e : ENC28J60) (clkrdy : Bool) : Nat × ENC28J60 × List BusAction :=
  if clkrdy then
    (0, { e with bank := MAADRX_BANK },
     [BusAction.resetAssert, BusAction.resetDeassert] ++ _ENC28J60_resetWriteTrace e.macAddress)
  else
    (1, e, [BusAction.resetAssert, BusAction.resetDeassert])

/-- C source: the retry loop of ENC28J60_setup, src/enc28j60.c line 126:
while the low-level reset returns nonzero, call it again.  The list
gives the outcome of each successive reset attempt (true = attempt
succeeds); the result is the index of the attempt on which the loop
exits, and none when no attempt in the list succeeds (the C loop would
still be spinning). -/
def ENC28J60_setup_tries : List Bool → Option Nat
  | [] => none
  | ok :: rest =>
    if ok then some 0
    else Option.map (fun n => n + 1) (ENC28J60_setup_tries rest)

/-- C source: ENC28J60_tick, src/enc28j60.c lines 626-640.  elapsed is
the result of periodicTimer_hasElapsed on the 30 s watchdog timer;
clkrdy parameterizes the reset it may force.  When the interval has
elapsed, a full reset is forced exactly if receivedPackets is at most
sentPackets, and both counters are then zeroed unconditionally. -/
def ENC28J60_tick (elapsed clkrdy : Bool) (e : ENC28J60) : ENC28J60 × List BusAction :=
  if elapsed then
    if e.receivedPackets ≤ e.sentPackets then
      let r := _ENC28J60_reset e clkrdy
      ({ r.2.1 with receivedPackets := 0, sentPackets := 0 }, r.2.2)
    else
      ({ e with receivedPackets := 0, sentPackets := 0 }, [])
  else
    (e, [])

/-- C source: ENC28J60_send, src/enc28j60.c lines 463-541.  data and
datalen are the frame and its uint16_t length; txrtsClears says whether
the ECON1.TXRTS poll saw the bit clear within the 5 s timeout.  On
timeout the function returns 0 without touching sentPackets; on
completion it increments sentPackets and returns datalen.  The trace
records the register and buffer writes, which are identical on both
paths (the timeout happens after the transmission was started). -/
def ENC28J60_send (e : ENC28J60) (data : List Nat) (datalen : Nat) (txrtsClears : Bool) :
    Nat × ENC28J60 × List BusAction :=
  let dataend := (TX_BUF_START + datalen) % 65536
  let trace : List BusAction :=
    [BusAction.selectBank ERXTX_BANK,
     BusAction.writeReg16 ETXSTL TX_BUF_START,
     BusAction.writeReg16 EWRPTL TX_BUF_START,
     BusAction.writeData [0x00],
     BusAction.writeData ((List.range datalen).map (fun i => data.getD i 0 % 256)),
     BusAction.writeReg16 ETXNDL dataend,
     BusAction.clearBit EIR EIR_TXIF,
     BusAction.setBit ECON1 ECON1_TXRTS]
  if txrtsClears then
    (datalen, { e with bank := ERXTX_BANK, sentPackets := e.sentPackets + 1 }, trace)
  else
    (0, { e with bank := ERXTX_BANK }, trace)

/-- C source: the errata 14 next-pointer correction of ENC28J60_receive,
src/enc28j60.c lines 599-605: the value programmed into ERXRDPT is
RX_BUF_END when the next-packet pointer equals RX_BUF_START, and the
next-packet pointer minus one otherwise. -/
def _ENC28J60_rxNextPtr (next : Nat) : Nat :=
  if next = RX_BUF_START then RX_BUF_END else next - 1

/-- Result of ENC28J60_receive: the int return value, the driver state
after the call, the bytes copied into the caller buffer (none when
nothing was copied), and the bus action trace. -/
structure RxOut where
  ret : Nat
  state : ENC28J60
  copied : Option (List Nat)
  trace : List BusAction
  deriving DecidableEq, Repr

/-- C source: ENC28J60_receive, src/enc28j60.c lines 543-624.  pktcnt is
the EPKTCNT byte read after selecting EPKTCNT_BANK; fifo gives the
successive bytes of the chip RX FIFO (index 0 is the first byte read;
each is a uint8_t, hence mod 256).  When the packet count is zero the
function returns 0 at once.  Otherwise it reads the 6 descriptor bytes
(next-pointer low and high, length low and high, two status bytes),
then either copies len bytes into the caller buffer (bufsize at least
len) or flushes len bytes one at a time, reads one pad byte when len is
odd, programs ERXRDPT with the errata 14 correction, sets
ECON2.PKTDEC, and finally returns 0 on the flush path or increments
receivedPackets and returns len on the copy path. -/
def ENC28J60_receive (e : ENC28J60) (bufsize pktcnt : Nat) (fifo : Nat → Nat) : RxOut :=
  let n := pktcnt % 256
  if n = 0 then
    { ret := 0, state := { e with bank := EPKTCNT_BANK }, copied := none,
      trace := [BusAction.selectBank EPKTCNT_BANK] }
  else
    let byteAt : Nat → Nat := fun i => fifo i % 256
    let next := byteAt 1 * 256 + byteAt 0
    let len := byteAt 3 * 256 + byteAt 2
    let payloadTrace : List BusAction :=
      if bufsize ≥ len then [BusAction.readData len]
      else List.replicate len (BusAction.readData 1)
    let oddTrace : List BusAction :=
      if len % 2 ≠ 0 then [BusAction.readData 1] else []
    let trace : List BusAction :=
      [BusAction.selectBank EPKTCNT_BANK, BusAction.selectBank ERXTX_BANK,
       BusAction.readData 1, BusAction.readData 1,
       BusAction.readData 1, BusAction.readData 1,
       BusAction.readData 1, BusAction.readData 1]
        ++ payloadTrace ++ oddTrace
        ++ [BusAction.writeReg16 ERXRDPTL (_ENC28J60_rxNextPtr next),
            BusAction.setBit ECON2 ECON2_PKTDEC]
    if bufsize ≥ len then
      { ret := len,
        state := { e with bank := ERXTX_BANK, receivedPackets := e.receivedPackets + 1 },
        copied := some ((List.range len).map (fun i => byteAt (6 + i))),
        trace := trace }
    else
      { ret := 0, state := { e with bank := ERXTX_BANK }, copied := none,
        trace := trace }

/- Trace observables. -/

/-- Number of chip FIFO bytes an action consumes. -/
def dataBytesCount : BusAction → Nat
  | BusAction.readData n => n
  | _ => 0

/-- Total number of chip FIFO bytes a trace consumes. -/
def dataBytesRead (l : List BusAction) : Nat := (l.map dataBytesCount).sum

/-- Whether an action programs the ERXRDPT read-pointer register. -/
def isErxrdptWrite : BusAction → Bool
  | BusAction.writeReg16 reg _ => decide (reg = ERXRDPTL)
  | _ => false

/-- Chip FIFO bytes consumed strictly before the first write to the
ERXRDPT read-pointer register. -/
def dataBytesBefore : List BusAction → Nat
  | [] => 0
  | a :: rest =>
    if isErxrdptWrite a then 0 else dataBytesCount a + dataBytesBefore rest

/-- The values successively programmed into ERXRDPT by a trace. -/
def erxrdptWrites : List BusAction → List Nat
  | [] => []
  | a :: rest =>
    match a with
    | BusAction.writeReg16 reg v =>
      if reg = ERXRDPTL then v :: erxrdptWrites rest else erxrdptWrites rest
    | _ => erxrdptWrites rest

/- Spec-side definitions used by the refinement-style claims. -/

/-- Modelled from the spec, section 4.1 and section 8: the MAC/MII
classification rule as the specification words it.  In the MAC-config
bank, any address below the bank-independent control-register range; in
the address bank, the two low station-address registers (MAADR5 at
address 0x00 and MAADR6 at address 0x01, which hold the two low-order
bytes of the station address) or the MII status register; in no other
bank. -/
def specMacMiiClass (bank reg : Nat) : Bool :=
  if bank = MACONX_BANK then decide (reg < EIE)
  else if bank = MAADRX_BANK then
    decide (reg = MAADR5) || decide (reg = MAADR6) || decide (reg = MISTAT)
  else false

/-- The addresses of the six station-address registers of the address
bank (MAADR1 through MAADR6, addresses 0x00 through 0x05). -/
def stationAddressRegs : List Nat := [MAADR1, MAADR2, MAADR3, MAADR4, MAADR5, MAADR6]

/-- The amended MAC/MII classification: in the MAC-config bank, any
address below the bank-independent control-register range; in the
address bank, any of the six station-address registers or the MII
status register; in no other bank. -/
def amendedMacMiiClass (bank reg : Nat) : Bool :=
  if bank = MACONX_BANK then decide (reg < EIE)
  else if bank = MAADRX_BANK then
    decide (reg ∈ stationAddressRegs) || decide (reg = MISTAT)
  else false

/- Concrete states and FIFO contents used to instantiate theorems. -/

/-- A concrete driver state: base bank selected, no traffic counted. -/
def rxState0 : ENC28J60 :=
  { bank := ERXTX_BANK, receivedPackets := 0, sentPackets := 0,
    macAddress := [18, 52, 86, 120, 154, 188] }

/-- A concrete driver state with 5 packets sent and 0 received. -/
def wdState50 : ENC28J60 :=
  { bank := ERXTX_BANK, receivedPackets := 0, sentPackets := 5,
    macAddress := [18, 52, 86, 120, 154, 188] }

/-- A concrete driver state with 5 packets sent and 6 received. -/
def wdState56 : ENC28J60 :=
  { bank := ERXTX_BANK, receivedPackets := 6, sentPackets := 5,
    macAddress := [18, 52, 86, 120, 154, 188] }

/-- A concrete RX FIFO: next-pointer 0x0000, frame length 3, zero
status bytes and zero payload bytes. -/
def rxFifo3 : Nat → Nat := fun i => if i = 2 then 3 else 0

/- Helper lemmas about the trace observables. -/

theorem dataBytesRead_append (l1 l2 : List BusAction) :
    dataBytesRead (l1 ++ l2) = dataBytesRead l1 + dataBytesRead l2 := by
  simp [dataBytesRead]

theorem dataBytesRead_replicate_readData (n : Nat) :
    dataBytesRead (List.replicate n (BusAction.readData 1)) = n := by
  simp [dataBytesRead, dataBytesCount]

theorem dataBytesBefore_replicate_readData (n : Nat) (l : List BusAction) :
    dataBytesBefore (List.replicate n (BusAction.readData 1) ++ l) =
      n + dataBytesBefore l := by
  induction n with
  | zero => simp [dataBytesBefore]
  | succ m ih =>
    simp [List.replicate_succ, dataBytesBefore, isErxrdptWrite, dataBytesCount, ih]
    omega

theorem erxrdptWrites_append (l1 l2 : List BusAction) :
    erxrdptWrites (l1 ++ l2) = erxrdptWrites l1 ++ erxrdptWrites l2 := by
  induction l1 with
  | nil => simp [erxrdptWrites]
  | cons a rest ih =>
    cases a <;> simp [erxrdptWrites, ih]
    split <;> simp [ih]

theorem erxrdptWrites_replicate_readData (n : Nat) :
    erxrdptWrites (List.replicate n (BusAction.readData 1)) = [] := by
  induction n with
  | zero => rfl
  | succ m ih => simp [List.replicate_succ, erxrdptWrites, ih]

/- Claim theorems. -/

/-- Claim C1: at every watchdog tick at which the 30 s interval has
elapsed, a full reset is forced exactly when the received-packet counter
is less than or equal to the sent-packet counter (including both nonzero
and equal), and both counters equal 0 after the tick regardless of
whether a reset occurred. -/
theorem C1_tick_reset_iff_counters_zero (e : ENC28J60) (clkrdy : Bool) :
    (BusAction.resetAssert ∈ (ENC28J60_tick true clkrdy e).2 ↔
      e.receivedPackets ≤ e.sentPackets) ∧
    (ENC28J60_tick true clkrdy e).1.receivedPackets = 0 ∧
    (ENC28J60_tick true clkrdy e).1.sentPackets = 0 := by
  by_cases h : e.receivedPackets ≤ e.sentPackets
  · cases clkrdy <;> simp [ENC28J60_tick, _ENC28J60_reset, h]
  · simp [ENC28J60_tick, h]

/-- Claim C1 witness: with sentPackets 5 and receivedPackets 0 an
elapsed tick forces a reset and zeroes the counters; with sentPackets 5
and receivedPackets 6 it does not force a reset and still zeroes the
counters. -/
theorem C1_tick_witness :
    BusAction.resetAssert ∈ (ENC28J60_tick true true wdState50).2 ∧
    BusAction.resetAssert ∉ (ENC28J60_tick true true wdState56).2 ∧
    (ENC28J60_tick true true wdState50).1.sentPackets = 0 ∧
    (ENC28J60_tick true true wdState56).1.receivedPackets = 0 := by
  have h1 := C1_tick_reset_iff_counters_zero wdState50 true
  have h2 := C1_tick_reset_iff_counters_zero wdState56 true
  refine ⟨h1.1.mpr (by decide), ?_, h1.2.2, h2.2.1⟩
  intro hm
  exact absurd (h2.1.mp hm) (by decide)

/-- Claim C10: at an elapsed watchdog tick with no traffic at all
(sentPackets = 0 and receivedPackets = 0) a full chip reset is still
forced, because the reset condition holds at 0 less than or equal to 0,
and the counters stay 0. -/
theorem C10_tick_idle_link_resets (bank : Nat) (mac : List Nat) (clkrdy : Bool) :
    BusAction.resetAssert ∈
      (ENC28J60_tick true clkrdy
        { bank := bank, receivedPackets := 0, sentPackets := 0, macAddress := mac }).2 ∧
    (ENC28J60_tick true clkrdy
      { bank := bank, receivedPackets := 0, sentPackets := 0, macAddress := mac }).1.receivedPackets = 0 ∧
    (ENC28J60_tick true clkrdy
      { bank := bank, receivedPackets := 0, sentPackets := 0, macAddress := mac }).1.sentPackets = 0 := by
  cases clkrdy <;> simp [ENC28J60_tick, _ENC28J60_reset]

/-- Claim C4: when the transmit-request bit never reads back cleared
within the 5 s timeout, send returns 0 bytes sent, does not increment
the sent-packet counter, and does not force a chip reset; when the bit
clears within the timeout, send increments the sent-packet counter and
returns the frame length. -/
theorem C4_send_timeout_and_success (e : ENC28J60) (data : List Nat) (datalen : Nat) :
    (ENC28J60_send e data datalen false).1 = 0 ∧
    (ENC28J60_send e data datalen false).2.1.sentPackets = e.sentPackets ∧
    BusAction.resetAssert ∉ (ENC28J60_send e data datalen false).2.2 ∧
    (ENC28J60_send e data datalen true).1 = datalen ∧
    (ENC28J60_send e data datalen true).2.1.sentPackets = e.sentPackets + 1 := by
  simp [ENC28J60_send]

/-- Claim C7: when the oscillator-ready bit never reads set within the
5 s timeout, reset returns the failure code 1 with no register
programmed beyond the hardware reset pulse and the driver state
unchanged, and the setup retry loop retries reset unconditionally,
terminating exactly when some attempt succeeds. -/
theorem C7_reset_timeout_setup_retries (e : ENC28J60) :
    (_ENC28J60_reset e false).1 = 1 ∧
    (_ENC28J60_reset e false).2.1 = e ∧
    (_ENC28J60_reset e false).2.2 = [BusAction.resetAssert, BusAction.resetDeassert] ∧
    (∀ outcomes : List Bool,
      (ENC28J60_setup_tries outcomes).isSome = true ↔ true ∈ outcomes) := by
  refine ⟨rfl, rfl, rfl, ?_⟩
  intro outcomes
  induction outcomes with
  | nil => simp [ENC28J60_setup_tries]
  | cons b rest ih =>
    cases b <;> simp [ENC28J60_setup_tries, ih]

/-- Claim C7 witness: a concrete timed-out reset reports failure, and
the setup loop with one failed attempt followed by one successful
attempt terminates. -/
theorem C7_reset_timeout_witness :
    (_ENC28J60_reset rxState0 false).1 = 1 ∧
    (ENC28J60_setup_tries [false, true]).isSome = true := by
  have h := C7_reset_timeout_setup_retries rxState0
  exact ⟨h.1, (h.2.2.2 [false, true]).mpr (by decide)⟩

set_option maxRecDepth 4000 in
/-- Claim C9: for every raw revision byte, readChipRevision reports 1
when the raw value is 2, reports 7 when the raw value is 6, and reports
every other raw value unchanged. -/
theorem C9_readRev_remap (e : ENC28J60) (rev : Nat) :
    (_ENC28J60_readRev e rev).1 =
      (if rev % 256 = 2 then 1 else if rev % 256 = 6 then 7 else rev % 256) := by
  have h : ∀ r, r < 256 →
      (match r with
       | 2 => 1
       | 6 => 7
       | _ => r) =
        (if r = 2 then 1 else if r = 6 then 7 else r) := by decide
  exact h (rev % 256) (Nat.mod_lt rev (by norm_num))

/-- Claim C5 counterexample: in the address bank the code classifies the
station-address register MAADR3 (address 0x02) as MAC/MII class, but
MAADR3 is neither one of the two low station-address registers (MAADR5
at 0x00, MAADR6 at 0x01) nor the MII status register, so the claimed
classification disagrees with the code at bank 3, register 0x02. -/
theorem C5_counterexample :
    _ENC28J60_isMacMiiReg MAADRX_BANK MAADR3 = true ∧
    specMacMiiClass MAADRX_BANK MAADR3 = false := by decide

/-- Claim C5 (amended): the MAC/MII-class predicate is a pure function
of bank and register address that holds in the MAC-config bank exactly
for addresses below the bank-independent control-register range, and in
the address bank exactly for the six station-address registers or the
MII status register (and in no other bank); readRegister transmits a
dummy byte before clocking the result byte exactly when this predicate
holds for the selected bank. -/
theorem C5_isMacMiiReg_classification (bank reg : Nat) :
    _ENC28J60_isMacMiiReg bank reg = amendedMacMiiClass bank reg ∧
    (_ENC28J60_readReg_spi bank reg).length =
      (if amendedMacMiiClass bank reg then 3 else 2) := by
  have hcls : _ENC28J60_isMacMiiReg bank reg = amendedMacMiiClass bank reg := by
    rcases bank with _ | _ | _ | _ | b
    · rfl
    · rfl
    · rw [Bool.eq_iff_iff]
      simp [_ENC28J60_isMacMiiReg, amendedMacMiiClass, MACONX_BANK]
    · rw [Bool.eq_iff_iff]
      simp [_ENC28J60_isMacMiiReg, amendedMacMiiClass, stationAddressRegs,
            MACONX_BANK, MAADRX_BANK, MAADR1, MAADR2, MAADR3, MAADR4, MAADR5,
            MAADR6, MISTAT, EIE]
      omega
    · rfl
  refine ⟨hcls, ?_⟩
  rw [← hcls]
  cases h : _ENC28J60_isMacMiiReg bank reg <;>
    simp [_ENC28J60_readReg_spi, h]

/-- Claim C2: for every decoded 16-bit next-packet pointer, the value
receive programs into the read-pointer register ERXRDPT equals
RX_BUF_END (0x0fff) when the next-pointer equals RX_BUF_START (0x0000)
and next-pointer minus one otherwise, and that is the only ERXRDPT
write the call performs. -/
theorem C2_receive_erxrdpt_value (e : ENC28J60) (bufsize pktcnt : Nat)
    (fifo : Nat → Nat) (hn : pktcnt % 256 ≠ 0) :
    erxrdptWrites (ENC28J60_receive e bufsize pktcnt fifo).trace =
      [if (fifo 1 % 256) * 256 + (fifo 0 % 256) = RX_BUF_START then RX_BUF_END
       else (fifo 1 % 256) * 256 + (fifo 0 % 256) - 1] := by
  by_cases hb : bufsize ≥ (fifo 3 % 256) * 256 + (fifo 2 % 256) <;>
  by_cases hodd : ((fifo 3 % 256) * 256 + (fifo 2 % 256)) % 2 = 0 <;>
  simp [ENC28J60_receive, hn, hb, hodd, _ENC28J60_rxNextPtr,
        erxrdptWrites_append, erxrdptWrites_replicate_readData, erxrdptWrites,
        ERXRDPTL]

/-- Claim C2 witness: a pending packet whose descriptor next-pointer is
0x0000 makes receive program ERXRDPT with RX_BUF_END. -/
theorem C2_receive_erxrdpt_witness :
    erxrdptWrites (ENC28J60_receive rxState0 64 1 rxFifo3).trace = [RX_BUF_END] := by
  have h := C2_receive_erxrdpt_value rxState0 64 1 rxFifo3 (by decide)
  rw [h]
  decide

theorem dataBytesRead_nil : dataBytesRead [] = 0 := rfl

theorem dataBytesRead_cons (a : BusAction) (l : List BusAction) :
    dataBytesRead (a :: l) = dataBytesCount a + dataBytesRead l := by
  simp [dataBytesRead]

/-- Claim C3: with a pending packet, if the declared descriptor length
exceeds the buffer capacity then receive discards exactly the declared
payload (total FIFO consumption is the 6 descriptor bytes plus the
length plus the odd-length pad), copies nothing, still programs the new
read pointer and sets the packet-decrement bit, returns 0 and leaves
the received-packet counter unchanged; if capacity is at least the
length it copies exactly the declared bytes, increments the
received-packet counter and returns the length. -/
theorem C3_receive_capacity_cases (e : ENC28J60) (bufsize pktcnt : Nat)
    (fifo : Nat → Nat) (hn : pktcnt % 256 ≠ 0) :
    ((fifo 3 % 256) * 256 + (fifo 2 % 256) > bufsize →
      (ENC28J60_receive e bufsize pktcnt fifo).ret = 0 ∧
      (ENC28J60_receive e bufsize pktcnt fifo).copied = none ∧
      dataBytesRead (ENC28J60_receive e bufsize pktcnt fifo).trace =
        6 + ((fifo 3 % 256) * 256 + (fifo 2 % 256))
          + ((fifo 3 % 256) * 256 + (fifo 2 % 256)) % 2 ∧
      erxrdptWrites (ENC28J60_receive e bufsize pktcnt fifo).trace =
        [_ENC28J60_rxNextPtr ((fifo 1 % 256) * 256 + (fifo 0 % 256))] ∧
      BusAction.setBit ECON2 ECON2_PKTDEC ∈
        (ENC28J60_receive e bufsize pktcnt fifo).trace ∧
      (ENC28J60_receive e bufsize pktcnt fifo).state.receivedPackets =
        e.receivedPackets) ∧
    (bufsize ≥ (fifo 3 % 256) * 256 + (fifo 2 % 256) →
      (ENC28J60_receive e bufsize pktcnt fifo).ret =
        (fifo 3 % 256) * 256 + (fifo 2 % 256) ∧
      (ENC28J60_receive e bufsize pktcnt fifo).copied =
        some ((List.range ((fifo 3 % 256) * 256 + (fifo 2 % 256))).map
          (fun i => fifo (6 + i) % 256)) ∧
      (ENC28J60_receive e bufsize pktcnt fifo).state.receivedPackets =
        e.receivedPackets + 1) := by
  constructor
  · intro hgt
    have hb : ¬ bufsize ≥ (fifo 3 % 256) * 256 + (fifo 2 % 256) := by omega
    by_cases hodd : ((fifo 3 % 256) * 256 + (fifo 2 % 256)) % 2 = 0 <;>
    simp [ENC28J60_receive, hn, hb, hodd, dataBytesRead_cons, dataBytesRead_nil,
          dataBytesRead_append, dataBytesRead_replicate_readData, dataBytesCount,
          erxrdptWrites_append, erxrdptWrites_replicate_readData, erxrdptWrites,
          List.mem_append, List.mem_replicate] <;>
    omega
  · intro hb
    simp [ENC28J60_receive, hn, hb]

/-- Claim C3 witness: a pending 3-byte frame offered to a 0-byte buffer
is discarded with return value 0 and no received-packet increment. -/
theorem C3_receive_capacity_witness :
    (ENC28J60_receive rxState0 0 1 rxFifo3).ret = 0 ∧
    (ENC28J60_receive rxState0 0 1 rxFifo3).copied = none ∧
    (ENC28J60_receive rxState0 0 1 rxFifo3).state.receivedPackets =
      rxState0.receivedPackets := by
  have h := (C3_receive_capacity_cases rxState0 0 1 rxFifo3 (by decide)).1 (by decide)
  exact ⟨h.1, h.2.1, h.2.2.2.2.2⟩

/-- Claim C6: with a pending packet, the total number of FIFO bytes
receive consumes before the new read pointer is programmed is the 6
descriptor bytes plus the declared length plus exactly one extra byte
when the length is odd and none when it is even, on both the copy and
the discard path, and no FIFO byte is consumed after that write. -/
theorem C6_receive_odd_length_pad (e : ENC28J60) (bufsize pktcnt : Nat)
    (fifo : Nat → Nat) (hn : pktcnt % 256 ≠ 0) :
    dataBytesBefore (ENC28J60_receive e bufsize pktcnt fifo).trace =
      6 + ((fifo 3 % 256) * 256 + (fifo 2 % 256))
        + ((fifo 3 % 256) * 256 + (fifo 2 % 256)) % 2 ∧
    dataBytesRead (ENC28J60_receive e bufsize pktcnt fifo).trace =
      6 + ((fifo 3 % 256) * 256 + (fifo 2 % 256))
        + ((fifo 3 % 256) * 256 + (fifo 2 % 256)) % 2 := by
  by_cases hb : bufsize ≥ (fifo 3 % 256) * 256 + (fifo 2 % 256) <;>
  by_cases hodd : ((fifo 3 % 256) * 256 + (fifo 2 % 256)) % 2 = 0 <;>
  simp [ENC28J60_receive, hn, hb, hodd, dataBytesBefore,
        dataBytesBefore_replicate_readData, dataBytesRead_cons, dataBytesRead_nil,
        dataBytesRead_append, dataBytesRead_replicate_readData, dataBytesCount,
        isErxrdptWrite] <;>
  omega

/-- Claim C6 witness: an odd declared length of 3 makes receive consume
exactly 10 FIFO bytes (6 descriptor bytes, 3 payload bytes and 1 pad
byte) before the read pointer is programmed. -/
theorem C6_receive_odd_length_witness :
    dataBytesBefore (ENC28J60_receive rxState0 64 1 rxFifo3).trace = 10 := by
  have h := (C6_receive_odd_length_pad rxState0 64 1 rxFifo3 (by decide)).1
  rw [h]
  decide

/-- Claim C8 counterexample: a call to receive that reads a zero
pending-packet count returns 0, but the recorded bank does change: from
the base bank it was in before the call to the packet-count bank that
receive selects before reading the counter, so the driver state is not
fully unchanged. -/
theorem C8_counterexample :
    (ENC28J60_receive rxState0 64 0 (fun i => i)).ret = 0 ∧
    rxState0.bank = ERXTX_BANK ∧
    (ENC28J60_receive rxState0 64 0 (fun i => i)).state.bank ≠ rxState0.bank := by
  decide

/-- Claim C8 (amended): when the pending-packet count read from the chip
is zero, receive returns 0 immediately (not an error), consumes no FIFO
bytes, does not program the read pointer, does not set the
packet-decrement bit, copies nothing, and leaves the driver state
unchanged except the recorded bank, which becomes the packet-count bank
selected in order to read the counter. -/
theorem C8_receive_no_pending (e : ENC28J60) (bufsize : Nat) (fifo : Nat → Nat) :
    (ENC28J60_receive e bufsize 0 fifo).ret = 0 ∧
    (ENC28J60_receive e bufsize 0 fifo).copied = none ∧
    dataBytesRead (ENC28J60_receive e bufsize 0 fifo).trace = 0 ∧
    erxrdptWrites (ENC28J60_receive e bufsize 0 fifo).trace = [] ∧
    BusAction.setBit ECON2 ECON2_PKTDEC ∉ (ENC28J60_receive e bufsize 0 fifo).trace ∧
    (ENC28J60_receive e bufsize 0 fifo).state.receivedPackets = e.receivedPackets ∧
    (ENC28J60_receive e bufsize 0 fifo).state.sentPackets = e.sentPackets ∧
    (ENC28J60_receive e bufsize 0 fifo).state.macAddress = e.macAddress ∧
    (ENC28J60_receive e bufsize 0 fifo).state.bank = EPKTCNT_BANK := by
  simp [ENC28J60_receive, dataBytesRead, dataBytesCount, erxrdptWrites]
